import Mathlib

/-
Verification of the AST core (src/ast.py): a shallow embedding of the node
catalog, its construction, traversal (children and iteration), the attribute
summary of the tree printer, and the constructor-call-shaped representation
formatter, together with theorems settling the frozen claims about them.

Python values stored in node slots are modelled by the type `Val`:
`Val.none` is Python None, `Val.str`/`Val.int` are primitive values,
`Val.coordv` is a `Coord` instance (line, optional column), `Val.list` is a
Python list, and `Val.node` is a nested AST node.  Each of the 31 concrete
node classes of ast.py becomes one constructor of `PNode` whose arguments
are exactly the declared `__slots__` of the class, in order.  Fallible Python
operations (raising AttributeError, NameError or TypeError) are modelled
with `Except Err`.
-/

namespace Ast

/-- Python exceptions raised by the modelled code paths. -/
inductive Err where
  | attributeError
  | nameError
  | typeError
deriving DecidableEq, Repr

mutual
/-- A Python value as stored in a node slot. -/
inductive Val : Type where
  | none
  | str (s : String)
  | int (n : Int)
  | coordv (line : Int) (column : Option Int)
  | list (xs : List Val)
  | node (n : PNode)

/-- One constructor per concrete node class of ast.py; constructor arguments
are the declared `__slots__` of the class, in order.  `TypeNode` is the class
`Type` (the source name is not a legal Lean constructor name), and the
`If` fields named `true`/`false` in the source are `tbranch`/`fbranch`
here.  `EmptyStatement` and `Break` declare `__slots__` as the plain
string "coord" (no tuple comma) in the source; each still carries the one
slot named coord. -/
inductive PNode : Type where
  | Program (gdecls symtab coord : Val)
  | Constant (type value coord rawtype gen_location : Val)
  | Cast (cast expression coord type gen_location : Val)
  | TypeNode (names coord : Val)
  | GlobalDecl (decls coord : Val)
  | FuncDecl (params type coord gen_location : Val)
  | FuncDef (spec decl param_decls body coord decls : Val)
  | FuncCall (name params coord type gen_location : Val)
  | VarDecl (declname type coord gen_location : Val)
  | Decl (name type init coord : Val)
  | PtrDecl (type coord : Val)
  | ArrayRef (name subscript coord bind type model gen_location : Val)
  | ArrayDecl (type tam coord : Val)
  | DeclList (decls coord : Val)
  | InitList (expression coord value gen_location : Val)
  | ExprList (expression coord : Val)
  | ParamList (params coord : Val)
  | UnaryOp (op expression coord gen_location type : Val)
  | BinaryOp (op left_val right_val coord type gen_location : Val)
  | Assignment (op value1 value2 coord : Val)
  | Compound (block_items coord : Val)
  | EmptyStatement (coord : Val)
  | Break (coord : Val)
  | Assert (expression coord : Val)
  | For (initial cond next statement coord label_exit : Val)
  | While (cond statement coord label_exit : Val)
  | Return (expression coord : Val)
  | ID (name coord type bind scope gen_location model : Val)
  | Print (expression coord : Val)
  | Read (expression coord : Val)
  | If (cond tbranch fbranch coord : Val)
end

/-- Python class name of a node, as used by `__repr__` and `show`. -/
def className : PNode → String
  | .Program _ _ _ => "Program"
  | .Constant _ _ _ _ _ => "Constant"
  | .Cast _ _ _ _ _ => "Cast"
  | .TypeNode _ _ => "Type"
  | .GlobalDecl _ _ => "GlobalDecl"
  | .FuncDecl _ _ _ _ => "FuncDecl"
  | .FuncDef _ _ _ _ _ _ => "FuncDef"
  | .FuncCall _ _ _ _ _ => "FuncCall"
  | .VarDecl _ _ _ _ => "VarDecl"
  | .Decl _ _ _ _ => "Decl"
  | .PtrDecl _ _ => "PtrDecl"
  | .ArrayRef _ _ _ _ _ _ _ => "ArrayRef"
  | .ArrayDecl _ _ _ => "ArrayDecl"
  | .DeclList _ _ => "DeclList"
  | .InitList _ _ _ _ => "InitList"
  | .ExprList _ _ => "ExprList"
  | .ParamList _ _ => "ParamList"
  | .UnaryOp _ _ _ _ _ => "UnaryOp"
  | .BinaryOp _ _ _ _ _ _ => "BinaryOp"
  | .Assignment _ _ _ _ => "Assignment"
  | .Compound _ _ => "Compound"
  | .EmptyStatement _ => "EmptyStatement"
  | .Break _ => "Break"
  | .Assert _ _ => "Assert"
  | .For _ _ _ _ _ _ => "For"
  | .While _ _ _ _ => "While"
  | .Return _ _ => "Return"
  | .ID _ _ _ _ _ _ _ => "ID"
  | .Print _ _ => "Print"
  | .Read _ _ => "Read"
  | .If _ _ _ _ => "If"

/-- Model of the Python idiom `field or []` used by every sequence-valued
child enumerator: an absent (None) or empty list contributes no elements.
In the tree discipline of ast.py a sequence field only ever holds a list
or None, so the catch-all branch is only ever reached for None. -/
def pyOrEmpty : Val → List Val
  | .list xs => xs
  | _ => []

/-- Index-tagged pseudo field name, modelling `"%s[%d]" % (base, i)`. -/
def idxName (base : String) (i : Nat) : String :=
  base ++ "[" ++ toString i ++ "]"

/-- Model of the loop `for i, child in enumerate(f or []): append((name[i], child))`,
with the running index made explicit. -/
def enumChildrenFrom (base : String) (i : Nat) : List Val → List (String × Val)
  | [] => []
  | v :: vs => (idxName base i, v) :: enumChildrenFrom base (i + 1) vs

/-- The same loop started at index 0, as `enumerate` does. -/
def enumChildren (base : String) (xs : List Val) : List (String × Val) :=
  enumChildrenFrom base 0 xs

/-- Model of the same loop with the additional `if child is not None` filter
that only `Print.children` has. -/
def enumChildrenSkipNoneFrom (base : String) (i : Nat) : List Val → List (String × Val)
  | [] => []
  | Val.none :: vs => enumChildrenSkipNoneFrom base (i + 1) vs
  | v :: vs => (idxName base i, v) :: enumChildrenSkipNoneFrom base (i + 1) vs

/-- The filtered loop started at index 0. -/
def enumChildrenSkipNone (base : String) (xs : List Val) : List (String × Val) :=
  enumChildrenSkipNoneFrom base 0 xs

/-- Model of the idiom `if field is not None: append((name, field))`. -/
def optChild (name : String) (v : Val) : List (String × Val) :=
  match v with
  | Val.none => []
  | v => [(name, v)]

/-- Values yielded for one optional child by `__iter__`:
`if field is not None: yield field`. -/
def optVal (v : Val) : List Val :=
  match v with
  | Val.none => []
  | v => [v]

/-- The `children()` method of each class, translated case by case from the
source: optional child fields are appended when not None, sequence fields
are expanded with indexed pseudo-names, and only `Print` filters None
elements out of its sequence. -/
def children : PNode → List (String × Val)
  | .Program gdecls _ _ => enumChildren "gdecls" (pyOrEmpty gdecls)
  | .Constant _ _ _ _ _ => []
  | .Cast cast expression _ _ _ =>
      optChild "cast" cast ++ optChild "expression" expression
  | .TypeNode _ _ => []
  | .GlobalDecl decls _ => enumChildren "decls" (pyOrEmpty decls)
  | .FuncDecl params type _ _ =>
      optChild "params" params ++ optChild "type" type
  | .FuncDef spec decl param_decls body _ _ =>
      optChild "spec" spec ++ optChild "decl" decl ++ optChild "body" body ++
        enumChildren "param_decls" (pyOrEmpty param_decls)
  | .FuncCall name params _ _ _ =>
      optChild "name" name ++ optChild "params" params
  | .VarDecl _ type _ _ => optChild "type" type
  | .Decl _ type init _ => optChild "type" type ++ optChild "init" init
  | .PtrDecl type _ => optChild "type" type
  | .ArrayRef name subscript _ _ _ _ _ =>
      optChild "name" name ++ optChild "subscript" subscript
  | .ArrayDecl type tam _ => optChild "type" type ++ optChild "tam" tam
  | .DeclList decls _ => enumChildren "decls" (pyOrEmpty decls)
  | .InitList expression _ _ _ => enumChildren "expression" (pyOrEmpty expression)
  | .ExprList expression _ => enumChildren "expression" (pyOrEmpty expression)
  | .ParamList params _ => enumChildren "params" (pyOrEmpty params)
  | .UnaryOp _ expression _ _ _ => optChild "expression" expression
  | .BinaryOp _ left_val right_val _ _ _ =>
      optChild "left_val" left_val ++ optChild "right_val" right_val
  | .Assignment _ value1 value2 _ =>
      optChild "value1" value1 ++ optChild "value2" value2
  | .Compound block_items _ => enumChildren "block_items" (pyOrEmpty block_items)
  | .EmptyStatement _ => []
  | .Break _ => []
  | .Assert expression _ => optChild "expression" expression
  | .For initial cond next statement _ _ =>
      optChild "initial" initial ++ optChild "cond" cond ++
        optChild "next" next ++ optChild "statement" statement
  | .While cond statement _ _ =>
      optChild "cond" cond ++ optChild "statement" statement
  | .Return expression _ => optChild "expression" expression
  | .ID _ _ _ _ _ _ _ => []
  | .Print expression _ => enumChildrenSkipNone "expression" (pyOrEmpty expression)
  | .Read expression _ => enumChildren "expression" (pyOrEmpty expression)
  | .If cond tbranch fbranch _ =>
      optChild "cond" cond ++ optChild "true" tbranch ++ optChild "false" fbranch

/-- The `__iter__` method of each class, translated case by case: the list
of values a fresh iterator yields, or the exception iterating raises.
`DeclList.__iter__` reads the undefined name `child` inside its loop body
(`for i in enumerate(self.decls or []): yield child`), so iterating any
DeclList with a nonempty decls list raises NameError before yielding
anything; with an absent or empty list the loop body never runs and the
iterator is empty.  `Print.__iter__` yields every element of its sequence,
without the None filter its `children()` applies. -/
def iterVals : PNode → Except Err (List Val)
  | .Program gdecls _ _ => .ok (pyOrEmpty gdecls)
  | .Constant _ _ _ _ _ => .ok []
  | .Cast cast expression _ _ _ => .ok (optVal cast ++ optVal expression)
  | .TypeNode _ _ => .ok []
  | .GlobalDecl decls _ => .ok (pyOrEmpty decls)
  | .FuncDecl params type _ _ => .ok (optVal params ++ optVal type)
  | .FuncDef spec decl param_decls body _ _ =>
      .ok (optVal spec ++ optVal decl ++ optVal body ++ pyOrEmpty param_decls)
  | .FuncCall name params _ _ _ => .ok (optVal name ++ optVal params)
  | .VarDecl _ type _ _ => .ok (optVal type)
  | .Decl _ type init _ => .ok (optVal type ++ optVal init)
  | .PtrDecl type _ => .ok (optVal type)
  | .ArrayRef name subscript _ _ _ _ _ => .ok (optVal name ++ optVal subscript)
  | .ArrayDecl type tam _ => .ok (optVal type ++ optVal tam)
  | .DeclList decls _ =>
      match pyOrEmpty decls with
      | [] => .ok []
      | _ :: _ => .error .nameError
  | .InitList expression _ _ _ => .ok (pyOrEmpty expression)
  | .ExprList expression _ => .ok (pyOrEmpty expression)
  | .ParamList params _ => .ok (pyOrEmpty params)
  | .UnaryOp _ expression _ _ _ => .ok (optVal expression)
  | .BinaryOp _ left_val right_val _ _ _ => .ok (optVal left_val ++ optVal right_val)
  | .Assignment _ value1 value2 _ => .ok (optVal value1 ++ optVal value2)
  | .Compound block_items _ => .ok (pyOrEmpty block_items)
  | .EmptyStatement _ => .ok []
  | .Break _ => .ok []
  | .Assert expression _ => .ok (optVal expression)
  | .For initial cond next statement _ _ =>
      .ok (optVal initial ++ optVal cond ++ optVal next ++ optVal statement)
  | .While cond statement _ _ => .ok (optVal cond ++ optVal statement)
  | .Return expression _ => .ok (optVal expression)
  | .ID _ _ _ _ _ _ _ => .ok []
  | .Print expression _ => .ok (pyOrEmpty expression)
  | .Read expression _ => .ok (pyOrEmpty expression)
  | .If cond tbranch fbranch _ =>
      .ok (optVal cond ++ optVal tbranch ++ optVal fbranch)

/-- The `attr_names` tuple declared by each class. -/
def attr_names : PNode → List String
  | .Constant _ _ _ _ _ => ["type", "value"]
  | .TypeNode _ _ => ["names"]
  | .Decl _ _ _ _ => ["name"]
  | .UnaryOp _ _ _ _ _ => ["op"]
  | .BinaryOp _ _ _ _ _ _ => ["op"]
  | .Assignment _ _ _ _ => ["op"]
  | .ID _ _ _ _ _ _ _ => ["name"]
  | _ => []

/-- Python `getattr(node, name)` over the slots of the node: `some` the stored
value when the slot exists, `Option.none` (AttributeError) otherwise. -/
def getattr? : PNode → String → Option Val
  | .Program gdecls symtab coord, a =>
      if a = "gdecls" then some gdecls
      else if a = "symtab" then some symtab
      else if a = "coord" then some coord
      else Option.none
  | .Constant type value coord rawtype gen_location, a =>
      if a = "type" then some type
      else if a = "value" then some value
      else if a = "coord" then some coord
      else if a = "rawtype" then some rawtype
      else if a = "gen_location" then some gen_location
      else Option.none
  | .Cast cast expression coord type gen_location, a =>
      if a = "cast" then some cast
      else if a = "expression" then some expression
      else if a = "coord" then some coord
      else if a = "type" then some type
      else if a = "gen_location" then some gen_location
      else Option.none
  | .TypeNode names coord, a =>
      if a = "names" then some names
      else if a = "coord" then some coord
      else Option.none
  | .GlobalDecl decls coord, a =>
      if a = "decls" then some decls
      else if a = "coord" then some coord
      else Option.none
  | .FuncDecl params type coord gen_location, a =>
      if a = "params" then some params
      else if a = "type" then some type
      else if a = "coord" then some coord
      else if a = "gen_location" then some gen_location
      else Option.none
  | .FuncDef spec decl param_decls body coord decls, a =>
      if a = "spec" then some spec
      else if a = "decl" then some decl
      else if a = "param_decls" then some param_decls
      else if a = "body" then some body
      else if a = "coord" then some coord
      else if a = "decls" then some decls
      else Option.none
  | .FuncCall name params coord type gen_location, a =>
      if a = "name" then some name
      else if a = "params" then some params
      else if a = "coord" then some coord
      else if a = "type" then some type
      else if a = "gen_location" then some gen_location
      else Option.none
  | .VarDecl declname type coord gen_location, a =>
      if a = "declname" then some declname
      else if a = "type" then some type
      else if a = "coord" then some coord
      else if a = "gen_location" then some gen_location
      else Option.none
  | .Decl name type init coord, a =>
      if a = "name" then some name
      else if a = "type" then some type
      else if a = "init" then some init
      else if a = "coord" then some coord
      else Option.none
  | .PtrDecl type coord, a =>
      if a = "type" then some type
      else if a = "coord" then some coord
      else Option.none
  | .ArrayRef name subscript coord bind type model gen_location, a =>
      if a = "name" then some name
      else if a = "subscript" then some subscript
      else if a = "coord" then some coord
      else if a = "bind" then some bind
      else if a = "type" then some type
      else if a = "model" then some model
      else if a = "gen_location" then some gen_location
      else Option.none
  | .ArrayDecl type tam coord, a =>
      if a = "type" then some type
      else if a = "tam" then some tam
      else if a = "coord" then some coord
      else Option.none
  | .DeclList decls coord, a =>
      if a = "decls" then some decls
      else if a = "coord" then some coord
      else Option.none
  | .InitList expression coord value gen_location, a =>
      if a = "expression" then some expression
      else if a = "coord" then some coord
      else if a = "value" then some value
      else if a = "gen_location" then some gen_location
      else Option.none
  | .ExprList expression coord, a =>
      if a = "expression" then some expression
      else if a = "coord" then some coord
      else Option.none
  | .ParamList params coord, a =>
      if a = "params" then some params
      else if a = "coord" then some coord
      else Option.none
  | .UnaryOp op expression coord gen_location type, a =>
      if a = "op" then some op
      else if a = "expression" then some expression
      else if a = "coord" then some coord
      else if a = "gen_location" then some gen_location
      else if a = "type" then some type
      else Option.none
  | .BinaryOp op left_val right_val coord type gen_location, a =>
      if a = "op" then some op
      else if a = "left_val" then some left_val
      else if a = "right_val" then some right_val
      else if a = "coord" then some coord
      else if a = "type" then some type
      else if a = "gen_location" then some gen_location
      else Option.none
  | .Assignment op value1 value2 coord, a =>
      if a = "op" then some op
      else if a = "value1" then some value1
      else if a = "value2" then some value2
      else if a = "coord" then some coord
      else Option.none
  | .Compound block_items coord, a =>
      if a = "block_items" then some block_items
      else if a = "coord" then some coord
      else Option.none
  | .EmptyStatement coord, a =>
      if a = "coord" then some coord else Option.none
  | .Break coord, a =>
      if a = "coord" then some coord else Option.none
  | .Assert expression coord, a =>
      if a = "expression" then some expression
      else if a = "coord" then some coord
      else Option.none
  | .For initial cond next statement coord label_exit, a =>
      if a = "initial" then some initial
      else if a = "cond" then some cond
      else if a = "next" then some next
      else if a = "statement" then some statement
      else if a = "coord" then some coord
      else if a = "label_exit" then some label_exit
      else Option.none
  | .While cond statement coord label_exit, a =>
      if a = "cond" then some cond
      else if a = "statement" then some statement
      else if a = "coord" then some coord
      else if a = "label_exit" then some label_exit
      else Option.none
  | .Return expression coord, a =>
      if a = "expression" then some expression
      else if a = "coord" then some coord
      else Option.none
  | .ID name coord type bind scope gen_location model, a =>
      if a = "name" then some name
      else if a = "coord" then some coord
      else if a = "type" then some type
      else if a = "bind" then some bind
      else if a = "scope" then some scope
      else if a = "gen_location" then some gen_location
      else if a = "model" then some model
      else Option.none
  | .Print expression coord, a =>
      if a = "expression" then some expression
      else if a = "coord" then some coord
      else Option.none
  | .Read expression coord, a =>
      if a = "expression" then some expression
      else if a = "coord" then some coord
      else Option.none
  | .If cond tbranch fbranch coord, a =>
      if a = "cond" then some cond
      else if a = "true" then some tbranch
      else if a = "false" then some fbranch
      else if a = "coord" then some coord
      else Option.none

/-- Attribute lookup with the None default; only applied to names that are
guaranteed present (members of the `attr_names` of the class). -/
def getattrD (n : PNode) (a : String) : Val :=
  (getattr? n a).getD Val.none

/-- The value of the `coord` slot of a node (every class has one). -/
def coordVal (n : PNode) : Val :=
  getattrD n "coord"

/-- A run of `k` spaces, modelling the Python repetition of the space
character `k` times. -/
def spaces (k : Nat) : String :=
  String.mk (List.replicate k ' ')

/-- Model of Python string replace on `s` with the pattern "\n": the
pattern is always the single
newline character in the source, so a character-wise translation is exact. -/
def pyReplaceNL (s repl : String) : String :=
  String.mk (s.toList.foldr
    (fun c acc => if c = '\n' then repl.toList ++ acc else c :: acc) [])

/-- The single-quote character, written via its code point. -/
def quoteChar : Char := Char.ofNat 39

/-- Python `repr` of a string: the value wrapped in single quotes.  Exact
for the strings the embedding is evaluated on (no quotes, backslashes or
control characters inside). -/
def pyStrRepr (s : String) : String :=
  String.mk [quoteChar] ++ s ++ String.mk [quoteChar]

/-- One `name=value` item of `Node.__repr__`: the rendered value has each
embedded newline followed by two spaces plus padding as wide as the field
name and the class name, exactly as in the source
(replace of "\n" by "\n  " plus `len(name) + len(classname)` spaces). -/
def reprField (cls name rendered : String) : String :=
  name ++ "=" ++ pyReplaceNL rendered ("\n  " ++ spaces (name.length + cls.length))

/-- The accumulation loop of `Node.__repr__` over already-rendered fields:
the first field follows the opening parenthesis directly; every further
field is preceded by a comma and the indent "\n " plus one space per
character of the class name. -/
def assembleRepr (cls : String) : List (String × String) → String
  | [] => cls ++ "()"
  | f :: rest =>
      cls ++ "(" ++ reprField cls f.1 f.2 ++
        String.join (rest.map (fun g => ",\n " ++ spaces cls.length ++ reprField cls g.1 g.2)) ++
        ")"

/-- Renders each field value in order, propagating the first exception, as
the `__repr__` loop does when a nested representation raises. -/
def collectFields : List (String × Except Err String) → Except Err (List (String × String))
  | [] => .ok []
  | (_, .error e) :: _ => .error e
  | (name, .ok r) :: rest =>
      match collectFields rest with
      | .error e => .error e
      | .ok rs => .ok ((name, r) :: rs)

/-- Assembles `Kind(field1=val1, ...)` from the class name and the rendered
slot values, or propagates an exception raised while rendering them. -/
def renderNode (cls : String) (fs : List (String × Except Err String)) : Except Err String :=
  match collectFields fs with
  | .error e => .error e
  | .ok rs => .ok (assembleRepr cls rs)

mutual
/-- Model of `_repr(obj)`: the pprint-like list rendering for lists and
`repr` for everything else.  `repr` of a Coord instance is the Python
default
object representation, which embeds a memory address; it is modelled by a
fixed placeholder and no theorem evaluates it. -/
def reprVal : Val → Except Err String
  | Val.none => .ok "None"
  | .str s => .ok (pyStrRepr s)
  | .int n => .ok (toString n)
  | .coordv _ _ => .ok "<Coord object>"
  | .list xs =>
      match reprElems xs with
      | .error e => .error e
      | .ok rs => .ok ("[" ++ String.intercalate ",\n " rs ++ "\n]")
  | .node n => reprNode n

/-- The per-element generator inside `_repr`: each element is rendered
and each of its newlines gets one extra following space. -/
def reprElems : List Val → Except Err (List String)
  | [] => .ok []
  | v :: vs =>
      match reprVal v with
      | .error e => .error e
      | .ok r =>
          match reprElems vs with
          | .error e => .error e
          | .ok rs => .ok (pyReplaceNL r "\n " :: rs)

/-- Model of `Node.__repr__`: renders the slots `self.__slots__[:-1]` (all
but the last declared slot) of each class, in slot order.  For
`EmptyStatement` and `Break` the `__slots__` declaration is the plain
string "coord", so `self.__slots__[:-1]` is the string "coor"; iterating it
yields the character "c" first and the attribute lookup of "c" raises
AttributeError before anything is produced. -/
def reprNode : PNode → Except Err String
  | .Program gdecls symtab _ =>
      renderNode "Program" [("gdecls", reprVal gdecls), ("symtab", reprVal symtab)]
  | .Constant type value coord rawtype _ =>
      renderNode "Constant" [("type", reprVal type), ("value", reprVal value),
        ("coord", reprVal coord), ("rawtype", reprVal rawtype)]
  | .Cast cast expression coord type _ =>
      renderNode "Cast" [("cast", reprVal cast), ("expression", reprVal expression),
        ("coord", reprVal coord), ("type", reprVal type)]
  | .TypeNode names _ =>
      renderNode "Type" [("names", reprVal names)]
  | .GlobalDecl decls _ =>
      renderNode "GlobalDecl" [("decls", reprVal decls)]
  | .FuncDecl params type coord _ =>
      renderNode "FuncDecl" [("params", reprVal params), ("type", reprVal type),
        ("coord", reprVal coord)]
  | .FuncDef spec decl param_decls body coord _ =>
      renderNode "FuncDef" [("spec", reprVal spec), ("decl", reprVal decl),
        ("param_decls", reprVal param_decls), ("body", reprVal body),
        ("coord", reprVal coord)]
  | .FuncCall name params coord type _ =>
      renderNode "FuncCall" [("name", reprVal name), ("params", reprVal params),
        ("coord", reprVal coord), ("type", reprVal type)]
  | .VarDecl declname type coord _ =>
      renderNode "VarDecl" [("declname", reprVal declname), ("type", reprVal type),
        ("coord", reprVal coord)]
  | .Decl name type init _ =>
      renderNode "Decl" [("name", reprVal name), ("type", reprVal type),
        ("init", reprVal init)]
  | .PtrDecl type _ =>
      renderNode "PtrDecl" [("type", reprVal type)]
  | .ArrayRef name subscript coord bind type model _ =>
      renderNode "ArrayRef" [("name", reprVal name), ("subscript", reprVal subscript),
        ("coord", reprVal coord), ("bind", reprVal bind), ("type", reprVal type),
        ("model", reprVal model)]
  | .ArrayDecl type tam _ =>
      renderNode "ArrayDecl" [("type", reprVal type), ("tam", reprVal tam)]
  | .DeclList decls _ =>
      renderNode "DeclList" [("decls", reprVal decls)]
  | .InitList expression coord value _ =>
      renderNode "InitList" [("expression", reprVal expression),
        ("coord", reprVal coord), ("value", reprVal value)]
  | .ExprList expression _ =>
      renderNode "ExprList" [("expression", reprVal expression)]
  | .ParamList params _ =>
      renderNode "ParamList" [("params", reprVal params)]
  | .UnaryOp op expression coord gen_location _ =>
      renderNode "UnaryOp" [("op", reprVal op), ("expression", reprVal expression),
        ("coord", reprVal coord), ("gen_location", reprVal gen_location)]
  | .BinaryOp op left_val right_val coord type _ =>
      renderNode "BinaryOp" [("op", reprVal op), ("left_val", reprVal left_val),
        ("right_val", reprVal right_val), ("coord", reprVal coord),
        ("type", reprVal type)]
  | .Assignment op value1 value2 _ =>
      renderNode "Assignment" [("op", reprVal op), ("value1", reprVal value1),
        ("value2", reprVal value2)]
  | .Compound block_items _ =>
      renderNode "Compound" [("block_items", reprVal block_items)]
  | .EmptyStatement _ => .error .attributeError
  | .Break _ => .error .attributeError
  | .Assert expression _ =>
      renderNode "Assert" [("expression", reprVal expression)]
  | .For initial cond next statement coord _ =>
      renderNode "For" [("initial", reprVal initial), ("cond", reprVal cond),
        ("next", reprVal next), ("statement", reprVal statement),
        ("coord", reprVal coord)]
  | .While cond statement coord _ =>
      renderNode "While" [("cond", reprVal cond), ("statement", reprVal statement),
        ("coord", reprVal coord)]
  | .Return expression _ =>
      renderNode "Return" [("expression", reprVal expression)]
  | .ID name coord type bind scope gen_location _ =>
      renderNode "ID" [("name", reprVal name), ("coord", reprVal coord),
        ("type", reprVal type), ("bind", reprVal bind), ("scope", reprVal scope),
        ("gen_location", reprVal gen_location)]
  | .Print expression _ =>
      renderNode "Print" [("expression", reprVal expression)]
  | .Read expression _ =>
      renderNode "Read" [("expression", reprVal expression)]
  | .If cond tbranch fbranch _ =>
      renderNode "If" [("cond", reprVal cond), ("true", reprVal tbranch),
        ("false", reprVal fbranch)]
end

/-- Model of `Coord.__str__`: empty when the line is falsy, else the fixed
`"   @ line:column"` pattern ( `%s` of an absent column prints `None`).
The line is carried as an integer, whose Python truthiness is being nonzero. -/
def coordStr (line : Int) (column : Option Int) : String :=
  if line = 0 then ""
  else
    "   @ " ++ toString line ++ ":" ++
      (match column with
       | some c => toString c
       | Option.none => "None")

/-- Python truthiness of a stored value, as used by `if self.coord:`. -/
def pyTruthy : Val → Bool
  | Val.none => false
  | .str s => !s.isEmpty
  | .int n => n != 0
  | .coordv _ _ => true
  | .list xs => !xs.isEmpty
  | .node _ => true

/-- Sequences a list of rendered pieces, propagating the first exception. -/
def collectStrs : List (Except Err String) → Except Err (List String)
  | [] => .ok []
  | .error e :: _ => .error e
  | .ok s :: rest =>
      match collectStrs rest with
      | .error e => .error e
      | .ok ss => .ok (s :: ss)

mutual
/-- Model of Python `str(v)` (the percent-s formatting of `v`) on an
attribute or coordinate
value.  `Node` defines no `__str__`, so `str` of a node falls back to the
custom `__repr__`; `str` of a list renders its elements with `repr`; a
`Coord` uses its own `__str__`. -/
def pyStr : Val → Except Err String
  | Val.none => .ok "None"
  | .str s => .ok s
  | .int n => .ok (toString n)
  | .coordv line column => .ok (coordStr line column)
  | .list xs =>
      match pyAtomList xs with
      | .error e => .error e
      | .ok rs => .ok ("[" ++ String.intercalate ", " rs ++ "]")
  | .node n => reprNode n

/-- Python `repr(v)` of a list element, as `str` of a list renders it. -/
def pyAtomRepr : Val → Except Err String
  | Val.none => .ok "None"
  | .str s => .ok (pyStrRepr s)
  | .int n => .ok (toString n)
  | .coordv _ _ => .ok "<Coord object>"
  | .list xs =>
      match pyAtomList xs with
      | .error e => .error e
      | .ok rs => .ok ("[" ++ String.intercalate ", " rs ++ "]")
  | .node n => reprNode n

/-- Element-wise `repr` for `str` of a list. -/
def pyAtomList : List Val → Except Err (List String)
  | [] => .ok []
  | v :: vs =>
      match pyAtomRepr v with
      | .error e => .error e
      | .ok r =>
          match pyAtomList vs with
          | .error e => .error e
          | .ok rs => .ok (r :: rs)
end

/-- One name=value item of the attribute summary. -/
def fmtNV (p : String × Val) : Except Err String :=
  match pyStr p.2 with
  | .error e => .error e
  | .ok v => .ok (p.1 ++ "=" ++ v)

/-- The attribute summary written by `Node.show` (its lines 64 to 71): with
`attrnames` on, the `name=value` pairs of the attributes whose value is not
None; with it off, the plain `str` of every declared attribute value, with
no None filter.  An empty `attr_names` tuple writes nothing. -/
def attrSummary (n : PNode) (attrnames : Bool) : Except Err String :=
  let names := attr_names n
  if names.isEmpty then .ok ""
  else if attrnames then
    let nvlist := names.filterMap (fun a =>
      match getattrD n a with
      | Val.none => Option.none
      | v => some (a, v))
    match collectStrs (nvlist.map fmtNV) with
    | .error e => .error e
    | .ok parts => .ok (String.intercalate ", " parts)
  else
    match collectStrs (names.map (fun a => pyStr (getattrD n a))) with
    | .error e => .error e
    | .ok parts => .ok (String.intercalate ", " parts)

/-- Modelled from the spec: the attribute summary as the specification
describes it, listing the declared attributes "either as bare values or as
name=value pairs depending on a mode flag, skipping attributes whose value
is empty/absent" - the None filter applied in both modes. -/
def attrSummarySpec (n : PNode) (attrnames : Bool) : Except Err String :=
  let present := (attr_names n).filterMap (fun a =>
    match getattrD n a with
    | Val.none => Option.none
    | v => some (a, v))
  if attrnames then
    match collectStrs (present.map fmtNV) with
    | .error e => .error e
    | .ok parts => .ok (String.intercalate ", " parts)
  else
    match collectStrs (present.map (fun p => pyStr p.2)) with
    | .error e => .error e
    | .ok parts => .ok (String.intercalate ", " parts)

/-- Modelled from the spec as amended: with the name=value mode off, every
declared attribute renders, an absent value as the text None. -/
def attrSummaryAllSpec (n : PNode) : Except Err String :=
  match collectStrs ((attr_names n).map (fun a =>
    match getattrD n a with
    | Val.none => .ok "None"
    | v => pyStr v)) with
  | .error e => .error e
  | .ok parts => .ok (String.intercalate ", " parts)

/-- The one line `Node.show` emits for a node itself (leading indent, class
name, optional field-name-in-parent, attribute summary, optional
coordinate), before recursing into the children. -/
def showLine (n : PNode) (attrnames nodenames showcoord : Bool)
    (offset : Nat) (myNodeName : Option String) : Except Err String :=
  let head :=
    match myNodeName, nodenames with
    | some nm, true => spaces offset ++ className n ++ " <" ++ nm ++ ">: "
    | _, _ => spaces offset ++ className n ++ ": "
  match attrSummary n attrnames with
  | .error e => .error e
  | .ok attrstr =>
      match (if showcoord && pyTruthy (coordVal n) then pyStr (coordVal n) else .ok "") with
      | .error e => .error e
      | .ok coordstr => .ok (head ++ attrstr ++ coordstr ++ "\n")

/-- Model of `coord.split(":")[0]` as `Compound.__init__` uses it: the part
of the string before the first colon. -/
def splitColonHead (s : String) : String :=
  String.mk (s.toList.takeWhile (fun c => c ≠ ':'))

/-- The `__init__` body of each class, one definition per class, fields
assigned exactly as in the source (structural arguments stored, annotation
slots set to None).  Python argument defaults and arity are modelled
separately by `callInit`. -/
def initProgram (gdecls symtab coord : Val) : PNode :=
  .Program gdecls Val.none coord

/-- Constant stores its type argument twice (in `type` and in `rawtype`)
and reserves `gen_location` as None. -/
def initConstant (type value coord : Val) : PNode :=
  .Constant type value coord type Val.none

/-- Cast reserves `type` and `gen_location` as None. -/
def initCast (cast expression coord : Val) : PNode :=
  .Cast cast expression coord Val.none Val.none

/-- The class `Type` of the source. -/
def initType (names coord : Val) : PNode :=
  .TypeNode names coord

/-- GlobalDecl constructor. -/
def initGlobalDecl (decls coord : Val) : PNode :=
  .GlobalDecl decls coord

/-- FuncDecl reserves `gen_location` as None. -/
def initFuncDecl (params type coord : Val) : PNode :=
  .FuncDecl params type coord Val.none

/-- FuncDef reserves `decls` as None. -/
def initFuncDef (spec decl param_decls body coord : Val) : PNode :=
  .FuncDef spec decl param_decls body coord Val.none

/-- FuncCall reserves `type` and `gen_location` as None. -/
def initFuncCall (name params coord : Val) : PNode :=
  .FuncCall name params coord Val.none Val.none

/-- VarDecl reserves `gen_location` as None. -/
def initVarDecl (declname type coord : Val) : PNode :=
  .VarDecl declname type coord Val.none

/-- Decl constructor. -/
def initDecl (name type init coord : Val) : PNode :=
  .Decl name type init coord

/-- PtrDecl constructor. -/
def initPtrDecl (type coord : Val) : PNode :=
  .PtrDecl type coord

/-- ArrayRef reserves `bind`, `type`, `model` and `gen_location` as None. -/
def initArrayRef (name subscript coord : Val) : PNode :=
  .ArrayRef name subscript coord Val.none Val.none Val.none Val.none

/-- ArrayDecl constructor. -/
def initArrayDecl (type tam coord : Val) : PNode :=
  .ArrayDecl type tam coord

/-- DeclList constructor. -/
def initDeclList (decls coord : Val) : PNode :=
  .DeclList decls coord

/-- InitList reserves `value` and `gen_location` as None (it has no `type`
slot). -/
def initInitList (expression coord : Val) : PNode :=
  .InitList expression coord Val.none Val.none

/-- ExprList stores only its expression list and coordinate (no annotation
slots). -/
def initExprList (expression coord : Val) : PNode :=
  .ExprList expression coord

/-- ParamList constructor. -/
def initParamList (params coord : Val) : PNode :=
  .ParamList params coord

/-- UnaryOp reserves `gen_location` and `type` as None. -/
def initUnaryOp (op expression coord : Val) : PNode :=
  .UnaryOp op expression coord Val.none Val.none

/-- BinaryOp reserves `type` and `gen_location` as None. -/
def initBinaryOp (op left_val right_val coord : Val) : PNode :=
  .BinaryOp op left_val right_val coord Val.none Val.none

/-- Assignment stores only op, the two value children and the coordinate
(no annotation slots). -/
def initAssignment (op value1 value2 coord : Val) : PNode :=
  .Assignment op value1 value2 coord

/-- Model of `Compound.__init__`: it evaluates
`coord.split(":")[0] + ":1"`, so the coordinate argument must be a string;
on a string it stores the part before the first colon with `":1"`
appended, and on anything else (None, a Coord instance, ...) the attribute
access `.split` raises AttributeError and construction fails. -/
def initCompound (block_items coord : Val) : Except Err PNode :=
  match coord with
  | .str s => .ok (.Compound block_items (.str (splitColonHead s ++ ":1")))
  | _ => .error .attributeError

/-- EmptyStatement constructor. -/
def initEmptyStatement (coord : Val) : PNode :=
  .EmptyStatement coord

/-- Break constructor. -/
def initBreak (coord : Val) : PNode :=
  .Break coord

/-- Assert constructor. -/
def initAssert (expression coord : Val) : PNode :=
  .Assert expression coord

/-- For reserves `label_exit` as None. -/
def initFor (initial cond next statement coord : Val) : PNode :=
  .For initial cond next statement coord Val.none

/-- While reserves `label_exit` as None; note that in the source its
`coord` parameter has no default value. -/
def initWhile (cond statement coord : Val) : PNode :=
  .While cond statement coord Val.none

/-- Return constructor. -/
def initReturn (expression coord : Val) : PNode :=
  .Return expression coord

/-- ID reserves `type`, `bind`, `scope`, `model` and `gen_location` as
None. -/
def initID (name coord : Val) : PNode :=
  .ID name coord Val.none Val.none Val.none Val.none Val.none

/-- Print constructor. -/
def initPrint (expression coord : Val) : PNode :=
  .Print expression coord

/-- Read constructor. -/
def initRead (expression coord : Val) : PNode :=
  .Read expression coord

/-- If constructor (fields named true and false in the source). -/
def initIf (cond tbranch fbranch coord : Val) : PNode :=
  .If cond tbranch fbranch coord

/-- The node kinds, one per concrete class, for stating facts about every
constructor signature. -/
inductive Kind where
  | Program | Constant | Cast | TypeK | GlobalDecl | FuncDecl | FuncDef
  | FuncCall | VarDecl | Decl | PtrDecl | ArrayRef | ArrayDecl | DeclList
  | InitList | ExprList | ParamList | UnaryOp | BinaryOp | Assignment
  | Compound | EmptyStatement | Break | Assert | For | While | Return
  | ID | Print | Read | If
deriving DecidableEq, Repr

/-- The kind of a node. -/
def kindOf : PNode → Kind
  | .Program _ _ _ => .Program
  | .Constant _ _ _ _ _ => .Constant
  | .Cast _ _ _ _ _ => .Cast
  | .TypeNode _ _ => .TypeK
  | .GlobalDecl _ _ => .GlobalDecl
  | .FuncDecl _ _ _ _ => .FuncDecl
  | .FuncDef _ _ _ _ _ _ => .FuncDef
  | .FuncCall _ _ _ _ _ => .FuncCall
  | .VarDecl _ _ _ _ => .VarDecl
  | .Decl _ _ _ _ => .Decl
  | .PtrDecl _ _ => .PtrDecl
  | .ArrayRef _ _ _ _ _ _ _ => .ArrayRef
  | .ArrayDecl _ _ _ => .ArrayDecl
  | .DeclList _ _ => .DeclList
  | .InitList _ _ _ _ => .InitList
  | .ExprList _ _ => .ExprList
  | .ParamList _ _ => .ParamList
  | .UnaryOp _ _ _ _ _ => .UnaryOp
  | .BinaryOp _ _ _ _ _ _ => .BinaryOp
  | .Assignment _ _ _ _ => .Assignment
  | .Compound _ _ => .Compound
  | .EmptyStatement _ => .EmptyStatement
  | .Break _ => .Break
  | .Assert _ _ => .Assert
  | .For _ _ _ _ _ _ => .For
  | .While _ _ _ _ => .While
  | .Return _ _ => .Return
  | .ID _ _ _ _ _ _ _ => .ID
  | .Print _ _ => .Print
  | .Read _ _ => .Read
  | .If _ _ _ _ => .If

/-- The positional parameter names of the `__init__` of each class (self
excluded), in declared order, copied from the source signatures. -/
def initParams : Kind → List String
  | .Program => ["gdecls", "symtab", "coord"]
  | .Constant => ["type", "value", "coord"]
  | .Cast => ["cast", "expression", "coord"]
  | .TypeK => ["names", "coord"]
  | .GlobalDecl => ["decls", "coord"]
  | .FuncDecl => ["params", "type", "coord"]
  | .FuncDef => ["spec", "decl", "param_decls", "body", "coord"]
  | .FuncCall => ["name", "params", "coord"]
  | .VarDecl => ["declname", "type", "coord"]
  | .Decl => ["name", "type", "init", "coord"]
  | .PtrDecl => ["type", "coord"]
  | .ArrayRef => ["name", "subscript", "coord"]
  | .ArrayDecl => ["type", "tam", "coord"]
  | .DeclList => ["decls", "coord"]
  | .InitList => ["expression", "coord"]
  | .ExprList => ["expression", "coord"]
  | .ParamList => ["params", "coord"]
  | .UnaryOp => ["op", "expression", "coord"]
  | .BinaryOp => ["op", "left_val", "right_val", "coord"]
  | .Assignment => ["op", "value1", "value2", "coord"]
  | .Compound => ["block_items", "coord"]
  | .EmptyStatement => ["coord"]
  | .Break => ["coord"]
  | .Assert => ["expression", "coord"]
  | .For => ["initial", "cond", "next", "statement", "coord"]
  | .While => ["cond", "statement", "coord"]
  | .Return => ["expression", "coord"]
  | .ID => ["name", "coord"]
  | .Print => ["expression", "coord"]
  | .Read => ["expression", "coord"]
  | .If => ["cond", "true", "false", "coord"]

/-- How many trailing parameters of each `__init__` carry a `=None`
default in the source: two for Program (`symtab` and `coord`), none for
While (its `coord` has no default), one (`coord`) everywhere else. -/
def numDefaults : Kind → Nat
  | .Program => 2
  | .While => 0
  | _ => 1

/-- Total number of positional arguments accepted. -/
def maxArity (k : Kind) : Nat :=
  (initParams k).length

/-- Number of arguments that must be supplied. -/
def requiredArity (k : Kind) : Nat :=
  maxArity k - numDefaults k

/-- Dispatches a full argument list (length exactly `maxArity`) to the
matching `__init__` body.  The catch-all branch is unreachable because
`callInit` always supplies exactly `maxArity` arguments. -/
def initBody : Kind → List Val → Except Err PNode
  | .Program, [gdecls, symtab, coord] => .ok (initProgram gdecls symtab coord)
  | .Constant, [type, value, coord] => .ok (initConstant type value coord)
  | .Cast, [cast, expression, coord] => .ok (initCast cast expression coord)
  | .TypeK, [names, coord] => .ok (initType names coord)
  | .GlobalDecl, [decls, coord] => .ok (initGlobalDecl decls coord)
  | .FuncDecl, [params, type, coord] => .ok (initFuncDecl params type coord)
  | .FuncDef, [spec, decl, param_decls, body, coord] =>
      .ok (initFuncDef spec decl param_decls body coord)
  | .FuncCall, [name, params, coord] => .ok (initFuncCall name params coord)
  | .VarDecl, [declname, type, coord] => .ok (initVarDecl declname type coord)
  | .Decl, [name, type, init, coord] => .ok (initDecl name type init coord)
  | .PtrDecl, [type, coord] => .ok (initPtrDecl type coord)
  | .ArrayRef, [name, subscript, coord] => .ok (initArrayRef name subscript coord)
  | .ArrayDecl, [type, tam, coord] => .ok (initArrayDecl type tam coord)
  | .DeclList, [decls, coord] => .ok (initDeclList decls coord)
  | .InitList, [expression, coord] => .ok (initInitList expression coord)
  | .ExprList, [expression, coord] => .ok (initExprList expression coord)
  | .ParamList, [params, coord] => .ok (initParamList params coord)
  | .UnaryOp, [op, expression, coord] => .ok (initUnaryOp op expression coord)
  | .BinaryOp, [op, left_val, right_val, coord] =>
      .ok (initBinaryOp op left_val right_val coord)
  | .Assignment, [op, value1, value2, coord] =>
      .ok (initAssignment op value1 value2 coord)
  | .Compound, [block_items, coord] => initCompound block_items coord
  | .EmptyStatement, [coord] => .ok (initEmptyStatement coord)
  | .Break, [coord] => .ok (initBreak coord)
  | .Assert, [expression, coord] => .ok (initAssert expression coord)
  | .For, [initial, cond, next, statement, coord] =>
      .ok (initFor initial cond next statement coord)
  | .While, [cond, statement, coord] => .ok (initWhile cond statement coord)
  | .Return, [expression, coord] => .ok (initReturn expression coord)
  | .ID, [name, coord] => .ok (initID name coord)
  | .Print, [expression, coord] => .ok (initPrint expression coord)
  | .Read, [expression, coord] => .ok (initRead expression coord)
  | .If, [cond, tbranch, fbranch, coord] => .ok (initIf cond tbranch fbranch coord)
  | _, _ => .error .typeError

/-- A positional constructor call `Class(args...)`: too few or too many
arguments is a TypeError; otherwise the missing trailing defaults (always
None in the source) are filled in and the `__init__` body runs. -/
def callInit (k : Kind) (args : List Val) : Except Err PNode :=
  if args.length < requiredArity k then .error .typeError
  else if maxArity k < args.length then .error .typeError
  else initBody k (args ++ List.replicate (maxArity k - args.length) Val.none)

/-- Whether a node is a DeclList whose decls list is nonempty - exactly the
nodes whose iteration raises NameError. -/
def declListNonempty : PNode → Bool
  | .DeclList decls _ => !(pyOrEmpty decls).isEmpty
  | _ => false

/-- Whether a node is a Print whose expression list contains a None
element - exactly the nodes where iteration yields values that
`children()` filters out. -/
def printHasNoneElem : PNode → Bool
  | .Print expression _ =>
      (pyOrEmpty expression).any (fun v =>
        match v with
        | Val.none => true
        | _ => false)
  | _ => false

/-- Whether every element of the sequence-valued child fields of the node is
present (not None); the nesting below the node is not inspected. -/
def noneFreeLists : PNode → Bool
  | .Program gdecls _ _ => (pyOrEmpty gdecls).all (fun v =>
      match v with
      | Val.none => false
      | _ => true)
  | .GlobalDecl decls _ => (pyOrEmpty decls).all (fun v =>
      match v with
      | Val.none => false
      | _ => true)
  | .FuncDef _ _ param_decls _ _ _ => (pyOrEmpty param_decls).all (fun v =>
      match v with
      | Val.none => false
      | _ => true)
  | .DeclList decls _ => (pyOrEmpty decls).all (fun v =>
      match v with
      | Val.none => false
      | _ => true)
  | .InitList expression _ _ _ => (pyOrEmpty expression).all (fun v =>
      match v with
      | Val.none => false
      | _ => true)
  | .ExprList expression _ => (pyOrEmpty expression).all (fun v =>
      match v with
      | Val.none => false
      | _ => true)
  | .ParamList params _ => (pyOrEmpty params).all (fun v =>
      match v with
      | Val.none => false
      | _ => true)
  | .Compound block_items _ => (pyOrEmpty block_items).all (fun v =>
      match v with
      | Val.none => false
      | _ => true)
  | .Print expression _ => (pyOrEmpty expression).all (fun v =>
      match v with
      | Val.none => false
      | _ => true)
  | .Read expression _ => (pyOrEmpty expression).all (fun v =>
      match v with
      | Val.none => false
      | _ => true)
  | _ => true

/-- Modelled from the spec: `children()` as the claims describe it - the
declared, currently-present (non-absent) children as (field-name, child)
pairs in declared (`__slots__`) field order, sequence fields expanded with
indexed pseudo-names and absent entries omitted.  It differs from the code
only at FuncDef, where the declared order puts `param_decls` before
`body`. -/
def childrenDeclared : PNode → List (String × Val)
  | .Program gdecls _ _ => enumChildrenSkipNone "gdecls" (pyOrEmpty gdecls)
  | .Constant _ _ _ _ _ => []
  | .Cast cast expression _ _ _ =>
      optChild "cast" cast ++ optChild "expression" expression
  | .TypeNode _ _ => []
  | .GlobalDecl decls _ => enumChildrenSkipNone "decls" (pyOrEmpty decls)
  | .FuncDecl params type _ _ =>
      optChild "params" params ++ optChild "type" type
  | .FuncDef spec decl param_decls body _ _ =>
      optChild "spec" spec ++ optChild "decl" decl ++
        enumChildrenSkipNone "param_decls" (pyOrEmpty param_decls) ++
        optChild "body" body
  | .FuncCall name params _ _ _ =>
      optChild "name" name ++ optChild "params" params
  | .VarDecl _ type _ _ => optChild "type" type
  | .Decl _ type init _ => optChild "type" type ++ optChild "init" init
  | .PtrDecl type _ => optChild "type" type
  | .ArrayRef name subscript _ _ _ _ _ =>
      optChild "name" name ++ optChild "subscript" subscript
  | .ArrayDecl type tam _ => optChild "type" type ++ optChild "tam" tam
  | .DeclList decls _ => enumChildrenSkipNone "decls" (pyOrEmpty decls)
  | .InitList expression _ _ _ =>
      enumChildrenSkipNone "expression" (pyOrEmpty expression)
  | .ExprList expression _ =>
      enumChildrenSkipNone "expression" (pyOrEmpty expression)
  | .ParamList params _ => enumChildrenSkipNone "params" (pyOrEmpty params)
  | .UnaryOp _ expression _ _ _ => optChild "expression" expression
  | .BinaryOp _ left_val right_val _ _ _ =>
      optChild "left_val" left_val ++ optChild "right_val" right_val
  | .Assignment _ value1 value2 _ =>
      optChild "value1" value1 ++ optChild "value2" value2
  | .Compound block_items _ =>
      enumChildrenSkipNone "block_items" (pyOrEmpty block_items)
  | .EmptyStatement _ => []
  | .Break _ => []
  | .Assert expression _ => optChild "expression" expression
  | .For initial cond next statement _ _ =>
      optChild "initial" initial ++ optChild "cond" cond ++
        optChild "next" next ++ optChild "statement" statement
  | .While cond statement _ _ =>
      optChild "cond" cond ++ optChild "statement" statement
  | .Return expression _ => optChild "expression" expression
  | .ID _ _ _ _ _ _ _ => []
  | .Print expression _ => enumChildrenSkipNone "expression" (pyOrEmpty expression)
  | .Read expression _ => enumChildrenSkipNone "expression" (pyOrEmpty expression)
  | .If cond tbranch fbranch _ =>
      optChild "cond" cond ++ optChild "true" tbranch ++ optChild "false" fbranch

/-- Whether the class declares its `__slots__` as a tuple whose last
element is the coordinate.  False for the classes that append annotation
slots after `coord` (Constant, Cast, FuncDecl, FuncDef, FuncCall, VarDecl,
ArrayRef, InitList, UnaryOp, BinaryOp, For, While, ID) and for
EmptyStatement and Break, whose `__slots__` is a plain string. -/
def lastSlotIsCoord : PNode → Bool
  | .Program _ _ _ => true
  | .TypeNode _ _ => true
  | .GlobalDecl _ _ => true
  | .Decl _ _ _ _ => true
  | .PtrDecl _ _ => true
  | .ArrayDecl _ _ _ => true
  | .DeclList _ _ => true
  | .ExprList _ _ => true
  | .ParamList _ _ => true
  | .Assignment _ _ _ _ => true
  | .Compound _ _ => true
  | .Assert _ _ => true
  | .Return _ _ => true
  | .Print _ _ => true
  | .Read _ _ => true
  | .If _ _ _ _ => true
  | _ => false

/-- Modelled from the spec: the representation formatter as the claim
describes it, rendering the node over its fields, excluding the
coordinate field from the rendered value list" - every declared slot except
`coord`, in slot order, with the same assembly as the source loop. -/
def reprNodeSpec : PNode → Except Err String
  | .Program gdecls symtab _ =>
      renderNode "Program" [("gdecls", reprVal gdecls), ("symtab", reprVal symtab)]
  | .Constant type value _ rawtype gen_location =>
      renderNode "Constant" [("type", reprVal type), ("value", reprVal value),
        ("rawtype", reprVal rawtype), ("gen_location", reprVal gen_location)]
  | .Cast cast expression _ type gen_location =>
      renderNode "Cast" [("cast", reprVal cast), ("expression", reprVal expression),
        ("type", reprVal type), ("gen_location", reprVal gen_location)]
  | .TypeNode names _ =>
      renderNode "Type" [("names", reprVal names)]
  | .GlobalDecl decls _ =>
      renderNode "GlobalDecl" [("decls", reprVal decls)]
  | .FuncDecl params type _ gen_location =>
      renderNode "FuncDecl" [("params", reprVal params), ("type", reprVal type),
        ("gen_location", reprVal gen_location)]
  | .FuncDef spec decl param_decls body _ decls =>
      renderNode "FuncDef" [("spec", reprVal spec), ("decl", reprVal decl),
        ("param_decls", reprVal param_decls), ("body", reprVal body),
        ("decls", reprVal decls)]
  | .FuncCall name params _ type gen_location =>
      renderNode "FuncCall" [("name", reprVal name), ("params", reprVal params),
        ("type", reprVal type), ("gen_location", reprVal gen_location)]
  | .VarDecl declname type _ gen_location =>
      renderNode "VarDecl" [("declname", reprVal declname), ("type", reprVal type),
        ("gen_location", reprVal gen_location)]
  | .Decl name type init _ =>
      renderNode "Decl" [("name", reprVal name), ("type", reprVal type),
        ("init", reprVal init)]
  | .PtrDecl type _ =>
      renderNode "PtrDecl" [("type", reprVal type)]
  | .ArrayRef name subscript _ bind type model gen_location =>
      renderNode "ArrayRef" [("name", reprVal name), ("subscript", reprVal subscript),
        ("bind", reprVal bind), ("type", reprVal type), ("model", reprVal model),
        ("gen_location", reprVal gen_location)]
  | .ArrayDecl type tam _ =>
      renderNode "ArrayDecl" [("type", reprVal type), ("tam", reprVal tam)]
  | .DeclList decls _ =>
      renderNode "DeclList" [("decls", reprVal decls)]
  | .InitList expression _ value gen_location =>
      renderNode "InitList" [("expression", reprVal expression),
        ("value", reprVal value), ("gen_location", reprVal gen_location)]
  | .ExprList expression _ =>
      renderNode "ExprList" [("expression", reprVal expression)]
  | .ParamList params _ =>
      renderNode "ParamList" [("params", reprVal params)]
  | .UnaryOp op expression _ gen_location type =>
      renderNode "UnaryOp" [("op", reprVal op), ("expression", reprVal expression),
        ("gen_location", reprVal gen_location), ("type", reprVal type)]
  | .BinaryOp op left_val right_val _ type gen_location =>
      renderNode "BinaryOp" [("op", reprVal op), ("left_val", reprVal left_val),
        ("right_val", reprVal right_val), ("type", reprVal type),
        ("gen_location", reprVal gen_location)]
  | .Assignment op value1 value2 _ =>
      renderNode "Assignment" [("op", reprVal op), ("value1", reprVal value1),
        ("value2", reprVal value2)]
  | .Compound block_items _ =>
      renderNode "Compound" [("block_items", reprVal block_items)]
  | .EmptyStatement _ => renderNode "EmptyStatement" []
  | .Break _ => renderNode "Break" []
  | .Assert expression _ =>
      renderNode "Assert" [("expression", reprVal expression)]
  | .For initial cond next statement _ label_exit =>
      renderNode "For" [("initial", reprVal initial), ("cond", reprVal cond),
        ("next", reprVal next), ("statement", reprVal statement),
        ("label_exit", reprVal label_exit)]
  | .While cond statement _ label_exit =>
      renderNode "While" [("cond", reprVal cond), ("statement", reprVal statement),
        ("label_exit", reprVal label_exit)]
  | .Return expression _ =>
      renderNode "Return" [("expression", reprVal expression)]
  | .ID name _ type bind scope gen_location model =>
      renderNode "ID" [("name", reprVal name), ("type", reprVal type),
        ("bind", reprVal bind), ("scope", reprVal scope),
        ("gen_location", reprVal gen_location), ("model", reprVal model)]
  | .Print expression _ =>
      renderNode "Print" [("expression", reprVal expression)]
  | .Read expression _ =>
      renderNode "Read" [("expression", reprVal expression)]
  | .If cond tbranch fbranch _ =>
      renderNode "If" [("cond", reprVal cond), ("true", reprVal tbranch),
        ("false", reprVal fbranch)]

/-- The values of an optional-child pair list are the values its iterator
yields. -/
theorem optChild_map_snd (s : String) (v : Val) :
    (optChild s v).map Prod.snd = optVal v := by
  cases v <;> rfl

/-- Dropping the index names from an indexed child enumeration recovers the
element list. -/
theorem enumChildrenFrom_map_snd (base : String) (i : Nat) (xs : List Val) :
    (enumChildrenFrom base i xs).map Prod.snd = xs := by
  induction xs generalizing i with
  | nil => rfl
  | cons v vs ih => simp [enumChildrenFrom, ih]

/-- On a list without None elements the filtered enumeration agrees with
the unfiltered one. -/
theorem enumSkipNoneFrom_eq (base : String) (i : Nat) (xs : List Val) :
    (∀ v ∈ xs, v ≠ Val.none) →
      enumChildrenSkipNoneFrom base i xs = enumChildrenFrom base i xs := by
  induction xs generalizing i with
  | nil => intro _; rfl
  | cons v vs ih =>
      intro h
      have hv : v ≠ Val.none := h v (List.mem_cons_self v vs)
      have htl : ∀ w ∈ vs, w ≠ Val.none := fun w hw => h w (List.mem_cons_of_mem v hw)
      cases v with
      | none => exact absurd rfl hv
      | str s => simp [enumChildrenSkipNoneFrom, enumChildrenFrom, ih (i + 1) htl]
      | int m => simp [enumChildrenSkipNoneFrom, enumChildrenFrom, ih (i + 1) htl]
      | coordv l c => simp [enumChildrenSkipNoneFrom, enumChildrenFrom, ih (i + 1) htl]
      | list ys => simp [enumChildrenSkipNoneFrom, enumChildrenFrom, ih (i + 1) htl]
      | node m => simp [enumChildrenSkipNoneFrom, enumChildrenFrom, ih (i + 1) htl]

/-- A true `all` over the non-None test gives membership-wise absence of
None. -/
theorem all_nonNone {xs : List Val}
    (h : xs.all (fun v =>
      match v with
      | Val.none => false
      | _ => true) = true) :
    ∀ v ∈ xs, v ≠ Val.none := by
  intro v hv hveq
  subst hveq
  have hx := List.all_eq_true.mp h Val.none hv
  simp at hx

/-- Outside the two flawed spots (a DeclList with a nonempty list, whose
iterator raises NameError, and a Print with None elements, whose iterator
yields what children filters out), iteration yields exactly the values of
`children()`, in order. -/
theorem iterVals_matches_children (n : PNode)
    (h1 : declListNonempty n = false) (h2 : printHasNoneElem n = false) :
    iterVals n = Except.ok ((children n).map Prod.snd) := by
  cases n
  case DeclList decls coord =>
      have hd : pyOrEmpty decls = [] := by
        simp [declListNonempty] at h1
        exact h1
      simp [iterVals, children, hd, enumChildren, enumChildrenFrom]
  case Print expression coord =>
      have he : ∀ v ∈ pyOrEmpty expression, v ≠ Val.none := by
        intro v hv hveq
        subst hveq
        have hany : (pyOrEmpty expression).any (fun v =>
            match v with
            | Val.none => true
            | _ => false) = true :=
          List.any_eq_true.mpr ⟨Val.none, hv, rfl⟩
        have hp : printHasNoneElem (PNode.Print expression coord) = true := hany
        rw [h2] at hp
        exact Bool.false_ne_true hp
      simp [iterVals, children, enumChildrenSkipNone,
        enumSkipNoneFrom_eq "expression" 0 _ he, enumChildrenFrom_map_snd]
  all_goals
    simp [iterVals, children, List.map_append, optChild_map_snd,
      enumChildren, enumChildrenFrom_map_snd]

/-- C1 (counterexample): a Compound constructed with the Coord value
(line 10, column 7) does not succeed, and neither does one constructed
with the default absent coordinate - both raise AttributeError, so the
claim that construction succeeds for any supplied coordinate value, and
that such a node stores a column rendering as 1, is false. -/
theorem C1_counterexample :
    initCompound (Val.list []) (Val.coordv 10 (some 7)) = Except.error Err.attributeError
    ∧ initCompound (Val.list []) Val.none = Except.error Err.attributeError :=
  ⟨rfl, rfl⟩

/-- C1 (amended): the Compound constructor treats its coordinate as a
colon-separated string.  Given the string coordinate "10:7" it stores
"10:1" - the part before the first colon with the column part replaced by
the fixed sentinel 1 - so the stored column renders as 1, not 7; given a
non-string coordinate (the absent default None, or a Coord value such as
line 10 column 7) construction raises AttributeError. -/
theorem C1_amended_compound_normalizes_string_coord :
    (∀ items : Val,
      initCompound items (Val.str "10:7") =
        Except.ok (PNode.Compound items (Val.str "10:1")))
    ∧ (∀ items : Val, initCompound items Val.none = Except.error Err.attributeError)
    ∧ (∀ (items : Val) (line : Int) (column : Option Int),
        initCompound items (Val.coordv line column) = Except.error Err.attributeError) :=
  ⟨fun _ => rfl, fun _ => rfl, fun _ _ _ => rfl⟩

/-- A list of length four is literally a four-element list. -/
theorem length_eq_four {α : Type} {l : List α} (h : l.length = 4) :
    ∃ a b c d, l = [a, b, c, d] := by
  match l with
  | [a, b, c, d] => exact ⟨a, b, c, d, rfl⟩
  | [] => simp at h
  | [a] => simp at h
  | [a, b] => simp at h
  | [a, b, c] => simp at h
  | a :: b :: c :: d :: e :: t => simp at h

/-- C2 (counterexample): the While constructor called with only its two
structural arguments (coordinate omitted) is an arity error, and Compound
constructed with its coordinate omitted raises AttributeError on the
default None - so the claim that for every variant the coordinate is
optional and omitting it succeeds is false. -/
theorem C2_counterexample :
    callInit Kind.While [Val.none, Val.none] = Except.error Err.typeError
    ∧ callInit Kind.Compound [Val.none] = Except.error Err.attributeError :=
  ⟨rfl, rfl⟩

/-- C2 (amended): every variant takes the coordinate as its last
constructor parameter; it is optional (has a None default) for every
variant except While; and for every variant except While and Compound,
supplying all parameters but the coordinate succeeds and leaves the stored
coordinate absent. -/
theorem C2_amended_coord_last_optional :
    (∀ k : Kind, (initParams k).getLast? = some "coord")
    ∧ (∀ k : Kind, k ≠ Kind.While → 1 ≤ numDefaults k)
    ∧ (∀ (k : Kind) (args : List Val), k ≠ Kind.While → k ≠ Kind.Compound →
        args.length + 1 = maxArity k →
        ∃ n, callInit k args = Except.ok n ∧ coordVal n = Val.none) := by
  refine ⟨fun k => by cases k <;> rfl, ?_, ?_⟩
  · intro k hk
    cases k <;> first | decide | exact absurd rfl hk
  · intro k args hW hC hlen
    cases k
  <;> first
    | exact absurd rfl hW
    | exact absurd rfl hC
    | (have hl : args.length = 0 := by simp only [maxArity, initParams, List.length_cons, List.length_nil] at hlen; omega
       obtain rfl := List.length_eq_zero.mp hl
       exact ⟨_, rfl, rfl⟩)
    | (have hl : args.length = 1 := by simp only [maxArity, initParams, List.length_cons, List.length_nil] at hlen; omega
       obtain ⟨a, rfl⟩ := List.length_eq_one.mp hl
       exact ⟨_, rfl, rfl⟩)
    | (have hl : args.length = 2 := by simp only [maxArity, initParams, List.length_cons, List.length_nil] at hlen; omega
       obtain ⟨a, b, rfl⟩ := List.length_eq_two.mp hl
       exact ⟨_, rfl, rfl⟩)
    | (have hl : args.length = 3 := by simp only [maxArity, initParams, List.length_cons, List.length_nil] at hlen; omega
       obtain ⟨a, b, c, rfl⟩ := List.length_eq_three.mp hl
       exact ⟨_, rfl, rfl⟩)
    | (have hl : args.length = 4 := by simp only [maxArity, initParams, List.length_cons, List.length_nil] at hlen; omega
       obtain ⟨a, b, c, d, rfl⟩ := length_eq_four hl
       exact ⟨_, rfl, rfl⟩)

/-- C2 (witness): Return built from one structural argument alone succeeds
with an absent coordinate. -/
theorem C2_witness :
    ∃ n, callInit Kind.Return [Val.none] = Except.ok n ∧ coordVal n = Val.none :=
  C2_amended_coord_last_optional.2.2 Kind.Return [Val.none]
    (by decide) (by decide) (by decide)

/-- A DeclList holding one declaration node, the input on which iteration
breaks. -/
def declListEx3 : PNode :=
  initDeclList (Val.list [Val.node (initVarDecl (Val.node (initID (Val.str "x") Val.none))
    (Val.node (initType (Val.list [Val.str "int"]) Val.none)) Val.none)]) Val.none

/-- A Print whose expression list holds one absent element. -/
def printEx3 : PNode := initPrint (Val.list [Val.none]) Val.none

/-- C3 (code bug): iterating a DeclList with a nonempty decls list raises
NameError (its loop body yields the undefined name `child`) although
`children()` returns the one indexed pair, and iterating a Print whose
expression list holds a None element yields that None although
`children()` filters it out - iteration does not yield the values of
`children()` as the iterator of every other class does. -/
theorem C3_code_bug_eval :
    iterVals declListEx3 = Except.error Err.nameError
    ∧ (children declListEx3).map Prod.fst = ["decls[0]"]
    ∧ iterVals printEx3 = Except.ok [Val.none]
    ∧ children printEx3 = []
    ∧ iterVals printEx3 ≠ Except.ok ((children printEx3).map Prod.snd) := by
  refine ⟨rfl, rfl, rfl, rfl, ?_⟩
  intro h
  exact List.cons_ne_nil _ _ (Except.ok.inj h)

/-- A DeclList holding one Break statement. -/
def declListEx4 : PNode :=
  initDeclList (Val.list [Val.node (initBreak Val.none)]) Val.none

/-- C4 (code bug): traversal and printing can raise - iterating a DeclList
with a nonempty list raises NameError, and the representation formatter
raises AttributeError on Break and EmptyStatement (their `__slots__` is
the plain string "coord", so `__repr__` iterates the string "coor" and
the attribute lookup of "c" fails), also when such a node sits inside a rendered
tree. -/
theorem C4_code_bug_eval :
    iterVals declListEx4 = Except.error Err.nameError
    ∧ reprNode (initBreak Val.none) = Except.error Err.attributeError
    ∧ reprNode (initEmptyStatement Val.none) = Except.error Err.attributeError
    ∧ reprNode (initCompound (Val.list [Val.node (initBreak Val.none)]) (Val.str "3:1")
        |>.toOption.getD (initBreak Val.none)) = Except.error Err.attributeError :=
  ⟨rfl, rfl, rfl, rfl⟩

/-- The Constant on which the field choice of the formatter is visible. -/
def constEx5 : PNode := initConstant (Val.int 1) (Val.int 2) Val.none

/-- C5 (counterexample): the representation of a freshly built Constant
renders its fields type, value, coord and rawtype - the coordinate is
rendered, the trailing gen_location slot is dropped - which differs from
the claimed rendering of all fields except the coordinate. -/
theorem C5_counterexample :
    reprNode constEx5 =
      Except.ok "Constant(type=1,\n         value=2,\n         coord=None,\n         rawtype=1)"
    ∧ reprNodeSpec constEx5 =
      Except.ok "Constant(type=1,\n         value=2,\n         rawtype=1,\n         gen_location=None)"
    ∧ ("Constant(type=1,\n         value=2,\n         coord=None,\n         rawtype=1)" : String) ≠
      "Constant(type=1,\n         value=2,\n         rawtype=1,\n         gen_location=None)" :=
  ⟨rfl, rfl, by decide⟩

/-- C5 (amended): the representation formatter renders
`Kind(field1=val1, ...)` over all declared slots except the last one, so
it excludes the coordinate exactly for the classes whose `__slots__` tuple
ends with coord; for those classes it agrees with the specified rendering
(all fields except the coordinate). -/
theorem C5_amended_repr_excludes_coord_when_last (n : PNode)
    (h : lastSlotIsCoord n = true) :
    reprNode n = reprNodeSpec n := by
  cases n <;> first | rfl | simp [lastSlotIsCoord] at h

/-- C5 (witness): on an Assignment, whose coord is its last slot, the
formatter agrees with the specified coordinate-free rendering. -/
theorem C5_witness :
    reprNode (initAssignment (Val.int 0) Val.none Val.none Val.none) =
      reprNodeSpec (initAssignment (Val.int 0) Val.none Val.none Val.none) :=
  C5_amended_repr_excludes_coord_when_last
    (initAssignment (Val.int 0) Val.none Val.none Val.none) rfl

/-- The Program with two empty global declarations from the claim. -/
def programEx6 : PNode :=
  initProgram
    (Val.list [Val.node (initGlobalDecl (Val.list []) Val.none),
      Val.node (initGlobalDecl (Val.list []) Val.none)])
    Val.none Val.none

/-- C6 (counterexample): the representation of a Program holding two
GlobalDecl children with empty declaration lists is not the claimed text -
the formatter renders an empty list as an opening bracket, a newline and
an indented closing bracket (never as `[]`), and it also renders the
symtab slot. -/
theorem C6_counterexample :
    reprNode programEx6 =
      Except.ok "Program(gdecls=[GlobalDecl(decls=[\n                                 ]),\n                GlobalDecl(decls=[\n                                 ])\n               ],\n        symtab=None)"
    ∧ ("Program(gdecls=[GlobalDecl(decls=[\n                                 ]),\n                GlobalDecl(decls=[\n                                 ])\n               ],\n        symtab=None)" : String) ≠
      "Program(gdecls=[GlobalDecl(decls=[]),\n GlobalDecl(decls=[])\n])" :=
  ⟨rfl, by decide⟩

/-- C6 (amended): the exact representation of that Program: list elements
are joined by comma-newline-space with the embedded newlines of each element
shifted one extra space, an empty list renders as a bracket pair split
over two lines, continuation lines are padded by the enclosing field and
class name widths, and the symtab slot is rendered after gdecls. -/
theorem C6_amended_exact_repr :
    reprNode programEx6 =
      Except.ok "Program(gdecls=[GlobalDecl(decls=[\n                                 ]),\n                GlobalDecl(decls=[\n                                 ])\n               ],\n        symtab=None)" :=
  rfl

/-- A FuncDef with a body and one parameter declaration. -/
def funcDefEx7 : PNode :=
  initFuncDef (Val.node (initType (Val.list [Val.str "int"]) Val.none))
    (Val.node (initID (Val.str "f") Val.none))
    (Val.list [Val.node (initID (Val.str "p") Val.none)])
    (Val.node (initBreak Val.none)) Val.none

/-- C7 (counterexample): on a FuncDef with a present body and a nonempty
param_decls list, `children()` yields the body before the parameter
declarations, against the declared `__slots__` order, in which param_decls
precedes body. -/
theorem C7_counterexample :
    (children funcDefEx7).map Prod.fst = ["spec", "decl", "body", "param_decls[0]"]
    ∧ (childrenDeclared funcDefEx7).map Prod.fst = ["spec", "decl", "param_decls[0]", "body"]
    ∧ (["spec", "decl", "body", "param_decls[0]"] : List String) ≠
      ["spec", "decl", "param_decls[0]", "body"] :=
  ⟨rfl, rfl, by decide⟩

/-- C7 (amended): for every variant other than FuncDef, on nodes whose
sequence fields carry no absent elements, `children()` returns exactly the
declared, currently-present children as (field-name, child) pairs in
declared field order, absent optional children omitted; FuncDef alone
emits its body child before its parameter declarations. -/
theorem C7_amended_children_declared_order (n : PNode)
    (hk : kindOf n ≠ Kind.FuncDef) (hl : noneFreeLists n = true) :
    children n = childrenDeclared n := by
  cases n
  case FuncDef spec decl param_decls body coord decls => exact absurd rfl hk
  all_goals try rfl
  all_goals
    simp only [noneFreeLists] at hl
  all_goals
    simp [children, childrenDeclared, enumChildren, enumChildrenSkipNone,
      enumSkipNoneFrom_eq _ 0 _ (all_nonNone hl)]

/-- C7 (witness): an If with an absent false branch yields exactly its
cond and true pairs, in declared order. -/
theorem C7_witness :
    children (initIf (Val.node (initID (Val.str "c") Val.none))
        (Val.node (initBreak Val.none)) Val.none Val.none) =
      childrenDeclared (initIf (Val.node (initID (Val.str "c") Val.none))
        (Val.node (initBreak Val.none)) Val.none Val.none) :=
  C7_amended_children_declared_order
    (initIf (Val.node (initID (Val.str "c") Val.none))
      (Val.node (initBreak Val.none)) Val.none Val.none)
    (by decide) rfl

/-- A Decl whose name attribute is absent. -/
def declEx8 : PNode := initDecl Val.none Val.none Val.none Val.none

/-- C8 (counterexample): with the attribute-name display flag off, the
attribute summary of a Decl with an absent name renders the text
None instead of skipping the absent attribute as the specified summary
does. -/
theorem C8_counterexample :
    attrSummary declEx8 false = Except.ok "None"
    ∧ attrSummarySpec declEx8 false = Except.ok ""
    ∧ ("None" : String) ≠ "" :=
  ⟨rfl, rfl, by decide⟩

/-- Joining an empty list of parts yields the empty string. -/
theorem intercalate_nil (s : String) : String.intercalate s [] = "" := rfl

/-- The match step collapsing the absent-as-None rendering into `pyStr`. -/
theorem pyStr_absent_match (v : Val) :
    (match v with
     | Val.none => Except.ok "None"
     | v => pyStr v) = pyStr v := by
  cases v <;> rfl

/-- C8 (amended): with the attribute-name display flag on, the attribute
summary skips attributes whose value is absent (it agrees with the
specified summary); with the flag off it renders every declared attribute
value, an absent one as the text None. -/
theorem C8_amended_attr_summary :
    (∀ n : PNode, attrSummary n true = attrSummarySpec n true)
    ∧ (∀ n : PNode, attrSummary n false = attrSummaryAllSpec n) := by
  constructor
  · intro n
    rcases hne : attr_names n with _ | ⟨a, as⟩ <;>
      simp [attrSummary, attrSummarySpec, hne, collectStrs, intercalate_nil]
  · intro n
    have hmap : (attr_names n).map (fun a =>
        match getattrD n a with
        | Val.none => Except.ok "None"
        | v => pyStr v) =
        (attr_names n).map (fun a => pyStr (getattrD n a)) :=
      List.map_congr_left (fun a _ => pyStr_absent_match (getattrD n a))
    rcases hne : attr_names n with _ | ⟨a, as⟩
    · simp [attrSummary, attrSummaryAllSpec, hne, collectStrs, intercalate_nil]
    · rw [hne] at hmap
      simp [attrSummary, attrSummaryAllSpec, hne, hmap]

/-- C9 (counterexample): Assignment reserves neither a type slot nor a
gen_location slot at construction, and ExprList reserves no gen_location
slot - reading them is an AttributeError, not an explicit empty value. -/
theorem C9_counterexample :
    getattr? (initAssignment (Val.str "=") Val.none Val.none Val.none) "type" = Option.none
    ∧ getattr? (initAssignment (Val.str "=") Val.none Val.none Val.none) "gen_location" =
        Option.none
    ∧ getattr? (initExprList (Val.list []) Val.none) "gen_location" = Option.none :=
  ⟨rfl, rfl, rfl⟩

/-- C9 (amended): of the expression-group variants, ID, BinaryOp, UnaryOp,
Cast, FuncCall and ArrayRef reserve both a type slot and a gen_location
slot holding the explicit empty value at construction; Constant reserves
gen_location as empty but its type slot holds the supplied type argument
(copied into rawtype as well); InitList reserves gen_location (and value)
as empty but has no type slot; Assignment and ExprList reserve neither
slot. -/
theorem C9_amended_annotation_slots :
    (∀ a b : Val, getattr? (initID a b) "type" = some Val.none
      ∧ getattr? (initID a b) "gen_location" = some Val.none)
    ∧ (∀ a b c d : Val, getattr? (initBinaryOp a b c d) "type" = some Val.none
      ∧ getattr? (initBinaryOp a b c d) "gen_location" = some Val.none)
    ∧ (∀ a b c : Val, getattr? (initUnaryOp a b c) "type" = some Val.none
      ∧ getattr? (initUnaryOp a b c) "gen_location" = some Val.none)
    ∧ (∀ a b c : Val, getattr? (initCast a b c) "type" = some Val.none
      ∧ getattr? (initCast a b c) "gen_location" = some Val.none)
    ∧ (∀ a b c : Val, getattr? (initFuncCall a b c) "type" = some Val.none
      ∧ getattr? (initFuncCall a b c) "gen_location" = some Val.none)
    ∧ (∀ a b c : Val, getattr? (initArrayRef a b c) "type" = some Val.none
      ∧ getattr? (initArrayRef a b c) "gen_location" = some Val.none)
    ∧ (∀ a b c : Val, getattr? (initConstant a b c) "gen_location" = some Val.none
      ∧ getattr? (initConstant a b c) "type" = some a
      ∧ getattr? (initConstant a b c) "rawtype" = some a)
    ∧ (∀ a b : Val, getattr? (initInitList a b) "gen_location" = some Val.none
      ∧ getattr? (initInitList a b) "type" = Option.none)
    ∧ (∀ a b c d : Val, getattr? (initAssignment a b c d) "type" = Option.none
      ∧ getattr? (initAssignment a b c d) "gen_location" = Option.none)
    ∧ (∀ a b : Val, getattr? (initExprList a b) "type" = Option.none
      ∧ getattr? (initExprList a b) "gen_location" = Option.none) :=
  ⟨fun _ _ => ⟨rfl, rfl⟩, fun _ _ _ _ => ⟨rfl, rfl⟩, fun _ _ _ => ⟨rfl, rfl⟩,
    fun _ _ _ => ⟨rfl, rfl⟩, fun _ _ _ => ⟨rfl, rfl⟩, fun _ _ _ => ⟨rfl, rfl⟩,
    fun _ _ _ => ⟨rfl, rfl, rfl⟩, fun _ _ => ⟨rfl, rfl⟩,
    fun _ _ _ _ => ⟨rfl, rfl⟩, fun _ _ => ⟨rfl, rfl⟩⟩

/-- C10 (confirmed): whatever gdecls and symtab values are passed, a
freshly constructed Program stores None in its symtab slot - the symtab
constructor argument is accepted but discarded. -/
theorem C10_symtab_discarded (gdecls symtab coord : Val) :
    getattr? (initProgram gdecls symtab coord) "symtab" = some Val.none :=
  rfl

end Ast
